import Mathlib

/-!
Verification of the `gsc-cli` core against its specification.

The development shallowly embeds the pure logic of `gsc_cli/analytics.py`,
`gsc_cli/auth.py` and `gsc_cli/config.py`:

* Python dicts with a fixed key set become Lean structures.
* Python dicts with open key sets (projected records, the config mapping)
  become insertion-ordered association lists with update-in-place semantics
  (`setKey`), matching CPython dict assignment.
* Python sets of strings become lists; only membership is ever used.
* Exceptions become `Except` values; the distinct `ValidationError` /
  `AuthError` / `ConfigError` messages become constructors of inductive
  error types carrying the data interpolated into the message.
* File-system writes become an explicit list of `Effect`s returned next to
  the result; external collaborators (the OAuth refresh endpoint, the
  ambient-default credential provider, the on-disk files) become oracle
  parameters.
-/

/-! ## JSON-ish values

Values that flow through API response rows and the config mapping.  The code
never computes with them, it only moves them around, so floating-point
metric values are kept opaque (an uninterpreted pair of integers).  `null`
is Python's `None`. -/

deriving instance DecidableEq for Except

inductive JVal where
  | null : JVal
  | str : String → JVal
  | intVal : Int → JVal
  | floatVal : Int → Int → JVal
deriving DecidableEq, Repr

/-- CPython dict assignment `d[k] = v` on an insertion-ordered association
list: replace the value at the first occurrence of `k`, or append a new
entry at the end. -/
def setKey : List (String × JVal) → String → JVal → List (String × JVal)
  | [], k, v => [(k, v)]
  | (k0, v0) :: rest, k, v =>
    if k0 = k then (k, v) :: rest else (k0, v0) :: setKey rest k v

/-! ## analytics.py: allowed enumerations

Python sets used only for membership tests; embedded as lists in source
order. -/

def ALLOWED_DIMENSIONS : List String :=
  ["country", "device", "page", "query", "searchAppearance", "date", "hour"]

def ALLOWED_FILTER_DIMENSIONS : List String :=
  ["country", "device", "page", "query", "searchAppearance"]

def ALLOWED_OPERATORS : List String :=
  ["contains", "equals", "notContains", "notEquals", "includingRegex", "excludingRegex"]

def ALLOWED_TYPES : List String :=
  ["web", "image", "video", "news", "discover", "googleNews"]

def ALLOWED_AGGREGATION_TYPES : List String :=
  ["auto", "byPage", "byProperty", "byNewsShowcasePanel"]

def ALLOWED_DATA_STATES : List String :=
  ["final", "all", "hourly_all"]

/-- The distinct `ValidationError` messages raised in `analytics.py`, as
constructors carrying the data interpolated into the message text. -/
inductive ValidationError where
  | invalidDate (value : String)
  | dateOrder
  | unsupportedType (t : String)
  | unsupportedAggregation (a : String)
  | unsupportedDataState (s : String)
  | rowLimitRange
  | startRowNegative
  | unsupportedDimension (d : String)
  | filterFormat
  | filterDimension (d : String)
  | filterOperator (o : String)
  | filterEmptyExpression
  | byPropertyPage
deriving DecidableEq, Repr

/-! ## analytics.py: date model

`parse_ymd` delegates to Python's `datetime.date.fromisoformat`.  The CLI
and the spec only ever use the dashed `YYYY-MM-DD` form, which is what this
model accepts: four digits, dash, two digits, dash, two digits, with a real
calendar month/day (proleptic Gregorian leap years) and year at least 1
(`datetime.MINYEAR`). -/

def digitVal (c : Char) : Option Nat :=
  if c.isDigit then some (c.toNat - 48) else none

def isLeapYear (y : Nat) : Bool :=
  (y % 4 == 0 && y % 100 != 0) || (y % 400 == 0)

def daysInMonth (y m : Nat) : Nat :=
  if m = 2 then (if isLeapYear y then 29 else 28)
  else if m = 4 ∨ m = 6 ∨ m = 9 ∨ m = 11 then 30
  else 31

/-- Parse a `YYYY-MM-DD` string into a `(year, month, day)` triple, checking
calendar validity exactly as `date.fromisoformat` does on that format. -/
def toYmd (s : String) : Option (Nat × Nat × Nat) :=
  match s.data with
  | [c1, c2, c3, c4, '-', c5, c6, '-', c7, c8] =>
    match digitVal c1, digitVal c2, digitVal c3, digitVal c4,
          digitVal c5, digitVal c6, digitVal c7, digitVal c8 with
    | some y1, some y2, some y3, some y4, some m1, some m2, some d1, some d2 =>
      let y := ((y1 * 10 + y2) * 10 + y3) * 10 + y4
      let m := m1 * 10 + m2
      let d := d1 * 10 + d2
      if 1 ≤ y ∧ 1 ≤ m ∧ m ≤ 12 ∧ 1 ≤ d ∧ d ≤ daysInMonth y m then
        some (y, m, d)
      else none
    | _, _, _, _, _, _, _, _ => none
  | _ => none

/-- Date comparison on parsed triples; Python's `date` ordering is
lexicographic on (year, month, day). -/
def ymdLe (a b : Nat × Nat × Nat) : Bool :=
  (a.1 < b.1) ||
  (a.1 == b.1 && a.2.1 < b.2.1) ||
  (a.1 == b.1 && a.2.1 == b.2.1 && a.2.2 ≤ b.2.2)

/-- `parse_ymd`: validate YYYY-MM-DD format and return the unchanged
string, or raise. -/
def parse_ymd (value : String) : Except ValidationError String :=
  match toYmd value with
  | some _ => .ok value
  | none => .error (.invalidDate value)

/-- `validate_date_range`: compare the two dates, raising on `start > end`.
The source re-parses with `date.fromisoformat` outside any handler; in
`build_query_request` both strings have already passed `parse_ymd`, so the
unparseable branch below is unreachable there. -/
def validate_date_range (start_date end_date : String) : Except ValidationError Unit :=
  match toYmd start_date, toYmd end_date with
  | some s, some e => if ymdLe s e then .ok () else .error .dateOrder
  | _, _ => .ok ()

/-! ## analytics.py: filter parsing -/

structure DimensionFilter where
  dimension : String
  operator : String
  expression : String
deriving DecidableEq, Repr

/-- Split a character list at the first `':'`, returning the parts before
and after it, or `none` when there is no `':'`. -/
def splitColon : List Char → Option (List Char × List Char)
  | [] => none
  | c :: cs =>
    if c = ':' then some ([], cs)
    else
      match splitColon cs with
      | none => none
      | some (a, b) => some (c :: a, b)

/-- Python's `s.split(":", 2)`: at most two splits, the remainder staying
in the final part. -/
def splitMax2 (s : String) : List String :=
  match splitColon s.data with
  | none => [s]
  | some (a, rest) =>
    match splitColon rest with
    | none => [String.mk a, String.mk rest]
    | some (b, c) => [String.mk a, String.mk b, String.mk c]

/-- `parse_filter_expression`: parse one `dimension:operator:expression`
filter string. -/
def parse_filter_expression (filter_expression : String) : Except ValidationError DimensionFilter :=
  match splitMax2 filter_expression with
  | [dimension, oper, expression] =>
    if dimension ∉ ALLOWED_FILTER_DIMENSIONS then .error (.filterDimension dimension)
    else if oper ∉ ALLOWED_OPERATORS then .error (.filterOperator oper)
    else if expression = "" then .error .filterEmptyExpression
    else .ok ⟨dimension, oper, expression⟩
  | _ => .error .filterFormat

/-! ## analytics.py: build_query_request -/

/-- The keyword arguments of `build_query_request`. -/
structure QueryInput where
  start_date : String
  end_date : String
  dimensions : List String
  query_type : String
  aggregation_type : String
  row_limit : Int
  start_row : Int
  data_state : String
  filters : List String
deriving DecidableEq, Repr

structure FilterGroup where
  groupType : String
  filters : List DimensionFilter
deriving DecidableEq, Repr

/-- The request body dict built on success.  Its key set is fixed except
for the two optional keys, which become `Option` fields (`none` = key
absent). -/
structure QueryBody where
  startDate : String
  endDate : String
  type : String
  aggregationType : String
  rowLimit : Int
  startRow : Int
  dataState : String
  dimensions : Option (List String)
  dimensionFilterGroups : Option (List FilterGroup)
deriving DecidableEq, Repr

/-- The `for dimension in dimensions` membership loop: error on the first
dimension outside `ALLOWED_DIMENSIONS`. -/
def check_dimensions : List String → Except ValidationError Unit
  | [] => .ok ()
  | d :: ds =>
    if d ∈ ALLOWED_DIMENSIONS then check_dimensions ds
    else .error (.unsupportedDimension d)

/-- The `[parse_filter_expression(item) for item in filters]` comprehension:
left to right, first failure wins. -/
def parse_filters : List String → Except ValidationError (List DimensionFilter)
  | [] => .ok []
  | f :: fs =>
    match parse_filter_expression f with
    | .error e => .error e
    | .ok x =>
      match parse_filters fs with
      | .error e => .error e
      | .ok xs => .ok (x :: xs)

/-- `build_query_request`: validate all fields in source order and assemble
the canonical body. -/
def build_query_request (i : QueryInput) : Except ValidationError QueryBody :=
  match parse_ymd i.start_date with
  | .error e => .error e
  | .ok _ =>
  match parse_ymd i.end_date with
  | .error e => .error e
  | .ok _ =>
  match validate_date_range i.start_date i.end_date with
  | .error e => .error e
  | .ok _ =>
  if i.query_type ∉ ALLOWED_TYPES then
    .error (.unsupportedType i.query_type)
  else if i.aggregation_type ∉ ALLOWED_AGGREGATION_TYPES then
    .error (.unsupportedAggregation i.aggregation_type)
  else if i.data_state ∉ ALLOWED_DATA_STATES then
    .error (.unsupportedDataState i.data_state)
  else if ¬(1 ≤ i.row_limit ∧ i.row_limit ≤ 25000) then
    .error .rowLimitRange
  else if i.start_row < 0 then
    .error .startRowNegative
  else
  match check_dimensions i.dimensions with
  | .error e => .error e
  | .ok _ =>
  match parse_filters i.filters with
  | .error e => .error e
  | .ok parsed_filters =>
  if i.aggregation_type = "byProperty" ∧
      ("page" ∈ i.dimensions ∨ parsed_filters.any (fun f => f.dimension == "page")) then
    .error .byPropertyPage
  else
    .ok
      { startDate := i.start_date
        endDate := i.end_date
        type := i.query_type
        aggregationType := i.aggregation_type
        rowLimit := i.row_limit
        startRow := i.start_row
        dataState := i.data_state
        dimensions := if i.dimensions = [] then none else some i.dimensions
        dimensionFilterGroups :=
          if parsed_filters = [] then none
          else some [{ groupType := "and", filters := parsed_filters }] }

/-! ## analytics.py: rows_to_records

A response row dict is projected onto the fields the code reads: the
positional `keys` list (default `[]`) and the four optional metric fields.
A projected record is an insertion-ordered dict, embedded as an association
list mutated with `setKey`. -/

structure ResponseRow where
  keys : List JVal
  clicks : Option JVal
  impressions : Option JVal
  ctr : Option JVal
  position : Option JVal
deriving DecidableEq, Repr

/-- The `for index, dimension in enumerate(dimensions)` loop:
`record[dimension] = keys[index] if index < len(keys) else None`. -/
def project_dims (keys : List JVal) : List String → Nat → List (String × JVal) → List (String × JVal)
  | [], _, record => record
  | d :: ds, idx, record => project_dims keys ds (idx + 1) (setKey record d (keys.getD idx JVal.null))

/-- One step of the metric loop: `if metric in row: record[metric] = row[metric]`. -/
def add_metric (record : List (String × JVal)) (name : String) (value : Option JVal) :
    List (String × JVal) :=
  match value with
  | none => record
  | some v => setKey record name v

/-- The body of the `for row in rows` loop in `rows_to_records`. -/
def row_to_record (dimensions : List String) (row : ResponseRow) : List (String × JVal) :=
  add_metric
    (add_metric
      (add_metric
        (add_metric (project_dims row.keys dimensions 0 []) "clicks" row.clicks)
        "impressions" row.impressions)
      "ctr" row.ctr)
    "position" row.position

/-- `rows_to_records`: the argument is `response.get("rows", [])`, already
projected to the row list. -/
def rows_to_records (rows : List ResponseRow) (dimensions : List String) :
    List (List (String × JVal)) :=
  rows.map (row_to_record dimensions)

/-! ## auth.py: data model

The credential object is google-auth's `Credentials`, an external
collaborator; the code reads its `valid`, `expired` and `refresh_token`
attributes and its `scopes`/`to_json()`.  Modelled with `token`/`expired`
primitive (google-auth defines `valid` as "token present and not expired")
and `json` the opaque `to_json()` payload. -/

structure Credential where
  token : Bool
  expired : Bool
  refreshToken : Bool
  scopes : Option (List String)
  json : String
deriving DecidableEq, Repr

/-- google-auth's `Credentials.valid` property:
`self.token is not None and not self.expired`. -/
def Credential.valid (c : Credential) : Bool :=
  c.token && !c.expired

def READ_SCOPE : String := "https://www.googleapis.com/auth/webmasters.readonly"

def WRITE_SCOPE : String := "https://www.googleapis.com/auth/webmasters"

/-- The distinct `AuthError` messages raised in `auth.py` along the
resolution path, as constructors carrying the interpolated data. -/
inductive AuthError where
  | unreadableStored
  | missingScopes
  | insufficientScope (required : String)
  | storedRefreshFailed
  | adcRefreshFailed (scope : String)
  | storedInvalidNoRefresh
  | adcMissing (scope : String)
deriving DecidableEq, Repr

/-- Observable file-system side effects of credential resolution. -/
inductive Effect where
  | mkdirParents (path : String)
  | writeFile (path content : String)
deriving DecidableEq, Repr

/-- `_persist_credentials`: create the parent directories, then write
`credentials.to_json() + "\n"` to the file. -/
def persist_credentials (c : Credential) (path : String) : List Effect :=
  [.mkdirParents path, .writeFile path (c.json ++ "\x0a")]

/-- `_ensure_valid_credentials`.  The refresh call against the remote token
endpoint is an oracle `refresh`; `.error ()` stands for a raised
`RefreshError`/`TransportError`.  `source_path = some p` is the
stored-credential case, `none` the ambient (ADC) case.  The returned effect
list records the writes performed. -/
def ensure_valid_credentials (refresh : Credential → Except Unit Credential)
    (credentials : Credential) (source_path : Option String) (required_scope : String) :
    Except AuthError (Credential × List Effect) :=
  if credentials.valid then .ok (credentials, [])
  else if credentials.expired && credentials.refreshToken then
    match refresh credentials with
    | .error _ =>
      match source_path with
      | some _ => .error .storedRefreshFailed
      | none => .error (.adcRefreshFailed required_scope)
    | .ok refreshed =>
      match source_path with
      | some p => .ok (refreshed, persist_credentials refreshed p)
      | none => .ok (refreshed, [])
  else
    match source_path with
    | some _ => .error .storedInvalidNoRefresh
    | none => .error (.adcRefreshFailed required_scope)

/-- `_validate_scope`.  `granted = none` is Python `None`; `not
granted_scopes` is true for both `None` and the empty list. -/
def validate_scope (granted_scopes : Option (List String)) (required_scope : String) :
    Except AuthError Unit :=
  match granted_scopes with
  | none => .error .missingScopes
  | some [] => .error .missingScopes
  | some gs =>
    if required_scope = READ_SCOPE ∧ WRITE_SCOPE ∈ gs then .ok ()
    else if required_scope ∈ gs then .ok ()
    else .error (.insufficientScope required_scope)

/-- State of the stored credential file: missing, present but rejected by
`Credentials.from_authorized_user_file`, or parsed into a credential. -/
inductive StoredFile where
  | absent
  | malformed
  | parsed (c : Credential)
deriving DecidableEq, Repr

/-- `_load_stored_credentials`; `path` is `credentials_file()`.  Returns
`ok none` when no file exists (the caller then falls back to ADC). -/
def load_stored_credentials (refresh : Credential → Except Unit Credential)
    (path : String) (file : StoredFile) (required_scope : String) :
    Except AuthError (Option (Credential × List Effect)) :=
  match file with
  | .absent => .ok none
  | .malformed => .error .unreadableStored
  | .parsed c =>
    match validate_scope c.scopes required_scope with
    | .error e => .error e
    | .ok _ =>
      match ensure_valid_credentials refresh c (some path) required_scope with
      | .error e => .error e
      | .ok r => .ok (some r)

/-- `_load_adc_credentials`; the ambient-default provider is an oracle,
`.error ()` standing for a raised `DefaultCredentialsError`. -/
def load_adc_credentials (refresh : Credential → Except Unit Credential)
    (adc : Except Unit Credential) (required_scope : String) :
    Except AuthError (Credential × List Effect) :=
  match adc with
  | .error _ => .error (.adcMissing required_scope)
  | .ok c => ensure_valid_credentials refresh c none required_scope

/-- `load_credentials`: prefer the stored token file, fall back to ADC only
when no stored file exists. -/
def load_credentials (refresh : Credential → Except Unit Credential)
    (path : String) (file : StoredFile) (adc : Except Unit Credential) (write : Bool) :
    Except AuthError (Credential × List Effect) :=
  let required_scope := if write then WRITE_SCOPE else READ_SCOPE
  match load_stored_credentials refresh path file required_scope with
  | .error e => .error e
  | .ok (some r) => .ok r
  | .ok none => load_adc_credentials refresh adc required_scope

/-! ## config.py -/

inductive ConfigError where
  | invalidJson
  | emptySite
deriving DecidableEq, Repr

/-- State of the config file: missing, invalid JSON, or a parsed JSON
object (insertion-ordered mapping). -/
inductive ConfigFile where
  | absent
  | malformed
  | valid (entries : List (String × JVal))
deriving DecidableEq, Repr

/-- `load_config`: `{}` when the file does not exist, `ConfigError` on
invalid JSON. -/
def load_config : ConfigFile → Except ConfigError (List (String × JVal))
  | .absent => .ok []
  | .malformed => .error .invalidJson
  | .valid entries => .ok entries

/-- Python's `str.strip()` whitespace class, restricted to the ASCII
whitespace characters (the CLI never feeds Unicode spaces here). -/
def isPySpace (c : Char) : Bool :=
  c == ' ' || c == '\t' || c == '\x0a' || c == '\x0d' || c == '\x0b' || c == '\x0c'

/-- Python's `str.strip()`: drop leading and trailing whitespace. -/
def pystrip (s : String) : String :=
  String.mk (((s.data.dropWhile isPySpace).reverse.dropWhile isPySpace).reverse)

/-- `set_default_site`: reject empty/whitespace-only input before touching
the file, otherwise read-modify-write the whole mapping.  The returned list
is the mapping handed to `save_config`, which writes it wholesale. -/
def set_default_site (file : ConfigFile) (site_url : String) :
    Except ConfigError (List (String × JVal)) :=
  if pystrip site_url = "" then .error .emptySite
  else
    match load_config file with
    | .error e => .error e
    | .ok config => .ok (setKey config "default_site" (.str (pystrip site_url)))

/-- The on-disk state after `set_default_site`: unchanged when it raised,
else the saved mapping. -/
def config_after_set (file : ConfigFile) (site_url : String) : ConfigFile :=
  match set_default_site file site_url with
  | .error _ => file
  | .ok m => .valid m

/-! ## Specification-side record shape for the RecordProjector claim

`record_spec` transcribes the spec's description of a projected record: per
dimension index `i` a field `dimensions[i]` holding the row's positional
key at `i` (or null when the row has fewer keys), followed by whichever of
the four metric fields are present, in that fixed order, values unchanged.
It is compared against `rows_to_records` in the refinement theorem. -/

def dim_fields (keys : List JVal) : List String → Nat → List (String × JVal)
  | [], _ => []
  | d :: ds, idx => (d, keys.getD idx JVal.null) :: dim_fields keys ds (idx + 1)

def metric_entry (name : String) (value : Option JVal) : List (String × JVal) :=
  match value with
  | none => []
  | some v => [(name, v)]

def record_spec (dimensions : List String) (row : ResponseRow) : List (String × JVal) :=
  dim_fields row.keys dimensions 0 ++
    (metric_entry "clicks" row.clicks ++ metric_entry "impressions" row.impressions ++
      metric_entry "ctr" row.ctr ++ metric_entry "position" row.position)

/-! ## Concrete instances used by witnesses and counterexamples -/

/-- A fully valid query with aggregation `byProperty` and the `page`
dimension requested. -/
def qiByPropertyPage : QueryInput :=
  { start_date := "2026-01-01", end_date := "2026-01-31",
    dimensions := ["page"], query_type := "web", aggregation_type := "byProperty",
    row_limit := 100, start_row := 0, data_state := "final", filters := [] }

/-- The happy-path query of the source's own test suite. -/
def qiHappy : QueryInput :=
  { start_date := "2026-01-01", end_date := "2026-01-31",
    dimensions := ["date", "query"], query_type := "web", aggregation_type := "auto",
    row_limit := 100, start_row := 0, data_state := "final",
    filters := ["query:contains:brand", "device:equals:MOBILE"] }

/-- The body `build_query_request` produces for `qiHappy`. -/
def qbHappy : QueryBody :=
  { startDate := "2026-01-01", endDate := "2026-01-31", type := "web",
    aggregationType := "auto", rowLimit := 100, startRow := 0, dataState := "final",
    dimensions := some ["date", "query"],
    dimensionFilterGroups :=
      some [⟨"and", [⟨"query", "contains", "brand"⟩, ⟨"device", "equals", "MOBILE"⟩]⟩] }

/-- Valid dates and type, then an unsupported aggregation type followed by
further violations (bad data state, bad row limit): the aggregation error
must win. -/
def qiAggFirst : QueryInput :=
  { start_date := "2026-01-01", end_date := "2026-01-31",
    dimensions := ["nonsense"], query_type := "web", aggregation_type := "bogus",
    row_limit := 0, start_row := -1, data_state := "bogus", filters := ["zzz"] }

/-- An expired, refresh-capable credential (access token still present). -/
def cExpired : Credential :=
  { token := true, expired := true, refreshToken := true,
    scopes := some [WRITE_SCOPE], json := "OLD" }

/-- The credential state after a successful refresh of `cExpired`. -/
def cFresh : Credential :=
  { token := true, expired := false, refreshToken := true,
    scopes := some [WRITE_SCOPE], json := "NEW" }

/-- A credential that is invalid without being expired: no access token and
no expiry timestamp, but refresh-capable.  `Credentials.from_authorized_user_info`
builds exactly this from a stored file that has a refresh token but no
cached access token. -/
def cStale : Credential :=
  { token := false, expired := false, refreshToken := true,
    scopes := some [READ_SCOPE], json := "STALE" }

/-- Rows/dimensions for the projector: one row with one positional key and
two requested dimensions, plus metrics `clicks` and `ctr`. -/
def rowShort : ResponseRow :=
  { keys := [.str "2026-01-01"], clicks := some (.intVal 5),
    impressions := none, ctr := some (.floatVal 12 (-2)), position := none }

/-- A duplicated dimension name: dict assignment makes the second position
overwrite the first. -/
def dimsDup : List String := ["query", "query"]

def rowAB : ResponseRow :=
  { keys := [.str "a", .str "b"], clicks := none, impressions := none,
    ctr := none, position := none }

/-- A dimension named like the metric field `ctr`, on a row that carries a
`ctr` metric: the metric write overwrites the positional key. -/
def rowCtr : ResponseRow :=
  { keys := [.str "x"], clicks := none, impressions := none,
    ctr := some (.floatVal 5 (-1)), position := none }

/-- An existing config mapping with an unrelated key and an old default
site. -/
def cfgBefore : List (String × JVal) :=
  [("theme", .str "dark"), ("default_site", .str "sc-domain:old.example")]

/-! ## Helper lemmas -/

theorem lookup_setKey_self (m : List (String × JVal)) (k : String) (v : JVal) :
    (setKey m k v).lookup k = some v := by
  induction m with
  | nil => simp [setKey, List.lookup]
  | cons e rest ih =>
    obtain ⟨k0, v0⟩ := e
    by_cases h : k0 = k
    · simp [setKey, h, List.lookup]
    · have hb : (k == k0) = false := beq_eq_false_iff_ne.mpr (Ne.symm h)
      simp [setKey, h, List.lookup, hb, ih]

theorem lookup_setKey_other (m : List (String × JVal)) (k : String) (v : JVal)
    (k' : String) (h : k' ≠ k) : (setKey m k v).lookup k' = m.lookup k' := by
  induction m with
  | nil =>
    have hb : (k' == k) = false := beq_eq_false_iff_ne.mpr h
    simp [setKey, List.lookup, hb]
  | cons e rest ih =>
    obtain ⟨k0, v0⟩ := e
    by_cases h0 : k0 = k
    · subst h0
      have hb : (k' == k0) = false := beq_eq_false_iff_ne.mpr h
      simp [setKey, List.lookup, hb, ih]
    · simp [setKey, h0, List.lookup, ih]

/-- C5: scope validation succeeds exactly when the granted set is a
present, non-empty list that either contains the required scope or
contains the read-write scope while read-only is required; in particular a
set holding only the read-only scope fails a read-write requirement. -/
theorem scope_validation_characterization :
    (∀ (granted : Option (List String)) (required : String),
        validate_scope granted required = .ok () ↔
          ∃ gs, granted = some gs ∧ gs ≠ [] ∧
            (required ∈ gs ∨ (required = READ_SCOPE ∧ WRITE_SCOPE ∈ gs))) ∧
    validate_scope (some [READ_SCOPE]) WRITE_SCOPE =
      .error (.insufficientScope WRITE_SCOPE) := by
  constructor
  · intro granted required
    match granted with
    | none => simp [validate_scope]
    | some [] => simp [validate_scope]
    | some (a :: as) =>
      simp only [validate_scope]
      split_ifs with h1 h2
      · simp only [true_iff]
        exact ⟨a :: as, rfl, by simp, Or.inr ⟨h1.1, h1.2⟩⟩
      · simp only [true_iff]
        exact ⟨a :: as, rfl, by simp, Or.inl h2⟩
      · constructor
        · intro hc
          exact absurd hc (by simp)
        · rintro ⟨gs, hgs, hne, hmem | ⟨hreq, hw⟩⟩
          · cases hgs
            exact absurd hmem h2
          · cases hgs
            exact absurd ⟨hreq, hw⟩ h1
  · decide

/-- C4: a malformed stored-credential file is fatal no matter what the
ambient provider would return; with a parsed stored file the result never
depends on the ambient provider; the ambient path is consulted exactly
when no stored file exists. -/
theorem malformed_stored_file_fatal_no_adc_fallback :
    (∀ (refresh : Credential → Except Unit Credential) (path : String)
        (adc : Except Unit Credential) (w : Bool),
        load_credentials refresh path .malformed adc w = .error .unreadableStored) ∧
    (∀ (refresh : Credential → Except Unit Credential) (path : String) (c : Credential)
        (adc adc' : Except Unit Credential) (w : Bool),
        load_credentials refresh path (.parsed c) adc w =
          load_credentials refresh path (.parsed c) adc' w) ∧
    (∀ (refresh : Credential → Except Unit Credential) (path : String)
        (adc : Except Unit Credential) (w : Bool),
        load_credentials refresh path .absent adc w =
          load_adc_credentials refresh adc (if w then WRITE_SCOPE else READ_SCOPE)) := by
  refine ⟨?_, ?_, ?_⟩
  · intro refresh path adc w
    simp [load_credentials, load_stored_credentials]
  · intro refresh path c adc adc' w
    simp only [load_credentials, load_stored_credentials]
    rcases validate_scope c.scopes (if w then WRITE_SCOPE else READ_SCOPE) with e | u
    · rfl
    · rcases ensure_valid_credentials refresh c (some path)
        (if w then WRITE_SCOPE else READ_SCOPE) with e | r <;> rfl
  · intro refresh path adc w
    simp [load_credentials, load_stored_credentials]

/-- C2: an expired, refresh-capable credential whose refresh succeeds is,
in the stored case, persisted back to the same file path (parent
directories created, trailing newline) before being returned, and in the
ambient case returned without any write. -/
theorem stored_refresh_persists_ambient_does_not
    (refresh : Credential → Except Unit Credential) (c c' : Credential)
    (p scope : String)
    (hexp : c.expired = true) (href : c.refreshToken = true)
    (hok : refresh c = .ok c') :
    ensure_valid_credentials refresh c (some p) scope =
      .ok (c', [.mkdirParents p, .writeFile p (c'.json ++ "\x0a")]) ∧
    ensure_valid_credentials refresh c none scope = .ok (c', []) ∧
    (validate_scope c.scopes scope = .ok () →
      load_stored_credentials refresh p (.parsed c) scope =
        .ok (some (c', [.mkdirParents p, .writeFile p (c'.json ++ "\x0a")]))) := by
  have hv : c.valid = false := by simp [Credential.valid, hexp]
  refine ⟨?_, ?_, ?_⟩
  · simp [ensure_valid_credentials, hv, hexp, href, hok, persist_credentials]
  · simp [ensure_valid_credentials, hv, hexp, href, hok]
  · intro hs
    simp [load_stored_credentials, hs, ensure_valid_credentials, hv, hexp, href, hok,
      persist_credentials]

theorem stored_refresh_persists_ambient_does_not_witness :
    ensure_valid_credentials (fun _ => .ok cFresh) cExpired
        (some "/home/u/.config/gsc-cli/credentials.json") READ_SCOPE =
      .ok (cFresh, [.mkdirParents "/home/u/.config/gsc-cli/credentials.json",
        .writeFile "/home/u/.config/gsc-cli/credentials.json" (cFresh.json ++ "\x0a")]) ∧
    ensure_valid_credentials (fun _ => .ok cFresh) cExpired none READ_SCOPE =
      .ok (cFresh, []) ∧
    (validate_scope cExpired.scopes READ_SCOPE = .ok () →
      load_stored_credentials (fun _ => .ok cFresh)
          "/home/u/.config/gsc-cli/credentials.json" (.parsed cExpired) READ_SCOPE =
        .ok (some (cFresh, [.mkdirParents "/home/u/.config/gsc-cli/credentials.json",
          .writeFile "/home/u/.config/gsc-cli/credentials.json" (cFresh.json ++ "\x0a")]))) :=
  stored_refresh_persists_ambient_does_not (fun _ => .ok cFresh) cExpired cFresh
    "/home/u/.config/gsc-cli/credentials.json" READ_SCOPE (by decide) (by decide) rfl

/-- C3 counterexample: a credential that is not valid (no access token)
and carries refresh capability, yet is *not* expired, hits the terminal
`AuthError` branch without the refresh ever being attempted — the outcome
is the same whether the refresh endpoint would succeed or fail. -/
theorem refresh_capability_not_sufficient_counterexample :
    Credential.valid cStale = false ∧ cStale.refreshToken = true ∧
    ensure_valid_credentials (fun _ => .ok cFresh) cStale none READ_SCOPE =
      .error (.adcRefreshFailed READ_SCOPE) ∧
    ensure_valid_credentials (fun _ => .error ()) cStale none READ_SCOPE =
      .error (.adcRefreshFailed READ_SCOPE) ∧
    ensure_valid_credentials (fun _ => .ok cFresh) cStale (some "p") READ_SCOPE =
      .error .storedInvalidNoRefresh := by
  decide

/-- C3 (amended): for an invalid credential, the refresh operation is
performed exactly when the credential is expired *and* carries refresh
capability; otherwise a terminal `AuthError` is signalled whose value does
not depend on the refresh endpoint at all (so no refresh is attempted),
even if the credential carries refresh capability. -/
theorem refresh_exactly_when_expired_and_refreshable
    (c : Credential) (src : Option String) (scope : String)
    (hinvalid : c.valid = false) :
    (c.expired = true → c.refreshToken = true →
      ∀ (refresh : Credential → Except Unit Credential) (c' : Credential),
        refresh c = .ok c' →
        ∃ effs, ensure_valid_credentials refresh c src scope = .ok (c', effs)) ∧
    (¬(c.expired = true ∧ c.refreshToken = true) →
      ∃ e, ∀ refresh : Credential → Except Unit Credential,
        ensure_valid_credentials refresh c src scope = .error e) := by
  constructor
  · intro hexp href refresh c' hok
    cases src with
    | none =>
      exact ⟨[], by simp [ensure_valid_credentials, hinvalid, hexp, href, hok]⟩
    | some p =>
      exact ⟨persist_credentials c' p,
        by simp [ensure_valid_credentials, hinvalid, hexp, href, hok]⟩
  · intro hnot
    have hb : (c.expired && c.refreshToken) = false := by
      rw [Bool.eq_false_iff]
      intro hc
      rw [Bool.and_eq_true] at hc
      exact hnot hc
    cases src with
    | none =>
      exact ⟨.adcRefreshFailed scope,
        fun refresh => by simp [ensure_valid_credentials, hinvalid, hb]⟩
    | some p =>
      exact ⟨.storedInvalidNoRefresh,
        fun refresh => by simp [ensure_valid_credentials, hinvalid, hb]⟩

theorem refresh_exactly_when_expired_and_refreshable_witness :
    ∃ e, ∀ refresh : Credential → Except Unit Credential,
      ensure_valid_credentials refresh cStale none READ_SCOPE = .error e :=
  (refresh_exactly_when_expired_and_refreshable cStale none READ_SCOPE (by decide)).2
    (by decide)

/-- C10: with a readable config mapping and a site string holding at least
one non-whitespace character, `set_default_site` saves the mapping with
`default_site` set to the stripped string and every other key unchanged;
for a whitespace-only string it raises `ConfigError` before reading or
writing (same error for every file state, file state unchanged). -/
theorem set_default_site_updates_only_default_site
    (m : List (String × JVal)) (s : String) :
    (pystrip s ≠ "" →
      ∃ m', set_default_site (.valid m) s = .ok m' ∧
        config_after_set (.valid m) s = .valid m' ∧
        m'.lookup "default_site" = some (.str (pystrip s)) ∧
        ∀ k, k ≠ "default_site" → m'.lookup k = m.lookup k) ∧
    (pystrip s = "" →
      ∀ f : ConfigFile,
        set_default_site f s = .error .emptySite ∧ config_after_set f s = f) := by
  constructor
  · intro h
    refine ⟨setKey m "default_site" (.str (pystrip s)), ?_, ?_, ?_, ?_⟩
    · simp [set_default_site, load_config, h]
    · simp [config_after_set, set_default_site, load_config, h]
    · exact lookup_setKey_self m "default_site" (.str (pystrip s))
    · intro k hk
      exact lookup_setKey_other m "default_site" (.str (pystrip s)) k hk
  · intro h f
    constructor
    · simp [set_default_site, h]
    · simp [config_after_set, set_default_site, h]

theorem set_default_site_updates_only_default_site_witness :
    ∃ m', set_default_site (.valid cfgBefore) "  sc-domain:new.example " = .ok m' ∧
      config_after_set (.valid cfgBefore) "  sc-domain:new.example " = .valid m' ∧
      m'.lookup "default_site" = some (.str (pystrip "  sc-domain:new.example ")) ∧
      ∀ k, k ≠ "default_site" → m'.lookup k = cfgBefore.lookup k :=
  (set_default_site_updates_only_default_site cfgBefore "  sc-domain:new.example ").1
    (by decide)

/-! ## Lemmas about the bounded split -/

theorem stringMk_data (s : String) : String.mk s.data = s := rfl

theorem splitColon_of_not_mem (l : List Char) (h : ':' ∉ l) : splitColon l = none := by
  induction l with
  | nil => rfl
  | cons c cs ih =>
    rw [List.mem_cons, not_or] at h
    rw [splitColon, if_neg (Ne.symm h.1), ih h.2]

theorem splitColon_append (a b : List Char) (h : ':' ∉ a) :
    splitColon (a ++ ':' :: b) = some (a, b) := by
  induction a with
  | nil => simp [splitColon]
  | cons c cs ih =>
    rw [List.mem_cons, not_or] at h
    rw [List.cons_append, splitColon, if_neg (Ne.symm h.1), ih h.2]

theorem splitColon_some_eq (l : List Char) (a b : List Char)
    (h : splitColon l = some (a, b)) : l = a ++ ':' :: b ∧ ':' ∉ a := by
  induction l generalizing a b with
  | nil => simp [splitColon] at h
  | cons c cs ih =>
    rw [splitColon] at h
    by_cases hc : c = ':'
    · rw [if_pos hc] at h
      injection h with h1
      rw [Prod.ext_iff] at h1
      obtain ⟨h1a, h1b⟩ := h1
      simp only at h1a h1b
      subst h1a
      subst h1b
      simp [hc]
    · rw [if_neg hc] at h
      match hrec : splitColon cs with
      | none => rw [hrec] at h; cases h
      | some (a0, b0) =>
        rw [hrec] at h
        injection h with h1
        rw [Prod.ext_iff] at h1
        obtain ⟨h1a, h1b⟩ := h1
        simp only at h1a h1b
        subst h1a
        subst h1b
        obtain ⟨heq, hmem⟩ := ih a0 b0 hrec
        refine ⟨by rw [heq, List.cons_append], ?_⟩
        rw [List.mem_cons, not_or]
        exact ⟨Ne.symm hc, hmem⟩

/-- C6: concatenating a filter-eligible dimension, an allowed operator and
a non-empty expression with `:` parses back to exactly that triple (the
expression may itself contain `:`), while any string with fewer than two
`:` delimiters fails with the format error. -/
theorem filter_parse_first_two_delimiters :
    (∀ d o e : String, d ∈ ALLOWED_FILTER_DIMENSIONS → o ∈ ALLOWED_OPERATORS →
      e ≠ "" →
      parse_filter_expression (d ++ ":" ++ o ++ ":" ++ e) = .ok ⟨d, o, e⟩) ∧
    (∀ s : String, s.data.count ':' < 2 →
      parse_filter_expression s = .error .filterFormat) := by
  constructor
  · intro d o e hd ho he
    have hcd : ':' ∉ d.data := by fin_cases hd <;> decide
    have hco : ':' ∉ o.data := by fin_cases ho <;> decide
    have h1 : splitColon (d ++ ":" ++ o ++ ":" ++ e).data =
        some (d.data, o.data ++ ':' :: e.data) := by
      have hdata : (d ++ ":" ++ o ++ ":" ++ e).data =
          d.data ++ ':' :: (o.data ++ ':' :: e.data) := by
        simp [String.data_append]
      rw [hdata]
      exact splitColon_append _ _ hcd
    have h2 : splitColon (o.data ++ ':' :: e.data) = some (o.data, e.data) :=
      splitColon_append _ _ hco
    simp only [parse_filter_expression, splitMax2, h1, h2, stringMk_data]
    rw [if_neg (not_not_intro hd), if_neg (not_not_intro ho), if_neg he]
  · intro s hcount
    match hsp : splitColon s.data with
    | none =>
      simp only [parse_filter_expression, splitMax2, hsp]
    | some (a, b) =>
      obtain ⟨heq, hna⟩ := splitColon_some_eq s.data a b hsp
      have hb : ':' ∉ b := by
        intro hmem
        have h2 : 2 ≤ s.data.count ':' := by
          rw [heq, List.count_append, List.count_cons]
          have ha0 : a.count ':' = 0 := List.count_eq_zero_of_not_mem hna
          have hb1 : 0 < b.count ':' := List.count_pos_iff.mpr hmem
          have : (':' == ':') = true := rfl
          rw [this, if_pos rfl]
          omega
        omega
      simp only [parse_filter_expression, splitMax2, hsp, splitColon_of_not_mem b hb]

theorem filter_parse_first_two_delimiters_witness :
    parse_filter_expression ("query" ++ ":" ++ "contains" ++ ":" ++ "brand:term") =
      .ok ⟨"query", "contains", "brand:term"⟩ :=
  filter_parse_first_two_delimiters.1 "query" "contains" "brand:term"
    (by decide) (by decide) (by decide)

/-! ## Unfolding facts for build_query_request -/

theorem parse_ymd_isSome (v : String) (h : (toYmd v).isSome) :
    parse_ymd v = .ok v := by
  obtain ⟨y, hy⟩ := Option.isSome_iff_exists.mp h
  rw [parse_ymd, hy]

theorem parse_filters_eq_nil (fs : List String) (l : List DimensionFilter)
    (h : parse_filters fs = .ok l) : (l = [] ↔ fs = []) := by
  cases fs with
  | nil =>
    rw [parse_filters] at h
    injection h with h1
    simp [← h1]
  | cons f fs' =>
    rw [parse_filters] at h
    constructor
    · intro hl
      subst hl
      rcases hpf : parse_filter_expression f with e | x <;> rw [hpf] at h
      · cases h
      · rcases hrest : parse_filters fs' with e | xs <;> rw [hrest] at h
        · cases h
        · injection h with h1
          cases h1
    · intro hc
      cases hc

/-- C1: for an input passing every validation other than the cross-field
rule (aggregation type itself being allowed), the build fails exactly when
the aggregation type is `byProperty` and the page dimension is requested
or some parsed filter targets `page`; in particular with any other allowed
aggregation type the presence of page never causes failure by itself. -/
theorem byProperty_page_incompatibility (i : QueryInput) (l : List DimensionFilter)
    (h1 : (toYmd i.start_date).isSome) (h2 : (toYmd i.end_date).isSome)
    (h3 : validate_date_range i.start_date i.end_date = .ok ())
    (h4 : i.query_type ∈ ALLOWED_TYPES)
    (h5 : i.aggregation_type ∈ ALLOWED_AGGREGATION_TYPES)
    (h6 : i.data_state ∈ ALLOWED_DATA_STATES)
    (h7 : 1 ≤ i.row_limit ∧ i.row_limit ≤ 25000)
    (h8 : ¬(i.start_row < 0))
    (h9 : check_dimensions i.dimensions = .ok ())
    (h10 : parse_filters i.filters = .ok l) :
    (∃ e, build_query_request i = .error e) ↔
      (i.aggregation_type = "byProperty" ∧
        ("page" ∈ i.dimensions ∨ ∃ f ∈ l, f.dimension = "page")) := by
  have hany : (l.any (fun f => f.dimension == "page") = true) ↔
      (∃ f ∈ l, f.dimension = "page") := by
    simp [List.any_eq_true]
  simp only [build_query_request]
  simp only [parse_ymd_isSome _ h1, parse_ymd_isSome _ h2]
  simp only [h3]
  simp only [if_neg (not_not_intro h4)]
  simp only [if_neg (not_not_intro h5)]
  simp only [if_neg (not_not_intro h6)]
  simp only [if_neg (not_not_intro h7)]
  simp only [if_neg h8]
  simp only [h9]
  simp only [h10]
  by_cases hc : (i.aggregation_type = "byProperty" ∧
      ("page" ∈ i.dimensions ∨ l.any (fun f => f.dimension == "page") = true))
  · rw [if_pos hc]
    constructor
    · intro _
      refine ⟨hc.1, ?_⟩
      rcases hc.2 with hpd | hpf
      · exact Or.inl hpd
      · exact Or.inr (hany.mp hpf)
    · intro _
      exact ⟨.byPropertyPage, rfl⟩
  · rw [if_neg hc]
    constructor
    · rintro ⟨e, he⟩
      cases he
    · rintro ⟨hagg, hpage⟩
      refine absurd ⟨hagg, ?_⟩ hc
      rcases hpage with hpd | hpf
      · exact Or.inl hpd
      · exact Or.inr (hany.mpr hpf)

theorem byProperty_page_incompatibility_witness :
    (∃ e, build_query_request qiByPropertyPage = .error e) ↔
      (qiByPropertyPage.aggregation_type = "byProperty" ∧
        ("page" ∈ qiByPropertyPage.dimensions ∨
          ∃ f ∈ ([] : List DimensionFilter), f.dimension = "page")) :=
  byProperty_page_incompatibility qiByPropertyPage [] (by decide) (by decide) (by decide)
    (by decide) (by decide) (by decide) (by decide) (by decide) (by decide) (by decide)

/-- C7: every successfully built body carries the seven scalar fields
verbatim from the input, a `dimensions` key exactly when the requested
tuple is non-empty (in caller order), and a `dimensionFilterGroups` key
exactly when at least one filter was supplied, holding a single group with
groupType `"and"`. -/
theorem built_body_shape (i : QueryInput) (b : QueryBody)
    (h : build_query_request i = .ok b) :
    b.startDate = i.start_date ∧ b.endDate = i.end_date ∧ b.type = i.query_type ∧
    b.aggregationType = i.aggregation_type ∧ b.rowLimit = i.row_limit ∧
    b.startRow = i.start_row ∧ b.dataState = i.data_state ∧
    (b.dimensions = if i.dimensions = [] then none else some i.dimensions) ∧
    ∃ l, parse_filters i.filters = .ok l ∧ (l = [] ↔ i.filters = []) ∧
      b.dimensionFilterGroups =
        (if l = [] then none else some [⟨"and", l⟩]) := by
  rw [build_query_request] at h
  rcases hp1 : parse_ymd i.start_date with e | s1 <;> simp only [hp1] at h
  · cases h
  rcases hp2 : parse_ymd i.end_date with e | s2 <;> simp only [hp2] at h
  · cases h
  rcases hp3 : validate_date_range i.start_date i.end_date with e | u <;> simp only [hp3] at h
  · cases h
  by_cases h4 : i.query_type ∉ ALLOWED_TYPES
  · rw [if_pos h4] at h; cases h
  rw [if_neg h4] at h
  by_cases h5 : i.aggregation_type ∉ ALLOWED_AGGREGATION_TYPES
  · rw [if_pos h5] at h; cases h
  rw [if_neg h5] at h
  by_cases h6 : i.data_state ∉ ALLOWED_DATA_STATES
  · rw [if_pos h6] at h; cases h
  rw [if_neg h6] at h
  by_cases h7 : ¬(1 ≤ i.row_limit ∧ i.row_limit ≤ 25000)
  · rw [if_pos h7] at h; cases h
  rw [if_neg h7] at h
  by_cases h8 : i.start_row < 0
  · rw [if_pos h8] at h; cases h
  rw [if_neg h8] at h
  rcases h9 : check_dimensions i.dimensions with e | u9 <;> simp only [h9] at h
  · cases h
  rcases h10 : parse_filters i.filters with e | l <;> simp only [h10] at h
  · cases h
  by_cases h11 : i.aggregation_type = "byProperty" ∧
      ("page" ∈ i.dimensions ∨ l.any (fun f => f.dimension == "page") = true)
  · rw [if_pos h11] at h; cases h
  rw [if_neg h11] at h
  injection h with hb
  subst hb
  refine ⟨rfl, rfl, rfl, rfl, rfl, rfl, rfl, rfl, l, rfl, parse_filters_eq_nil _ _ h10, rfl⟩

theorem built_body_shape_witness :
    build_query_request qiHappy = .ok qbHappy ∧
    (qbHappy.startDate = qiHappy.start_date ∧ qbHappy.endDate = qiHappy.end_date ∧
      qbHappy.type = qiHappy.query_type ∧
      qbHappy.aggregationType = qiHappy.aggregation_type ∧
      qbHappy.rowLimit = qiHappy.row_limit ∧ qbHappy.startRow = qiHappy.start_row ∧
      qbHappy.dataState = qiHappy.data_state ∧
      (qbHappy.dimensions = if qiHappy.dimensions = [] then none else some qiHappy.dimensions) ∧
      ∃ l, parse_filters qiHappy.filters = .ok l ∧ (l = [] ↔ qiHappy.filters = []) ∧
        qbHappy.dimensionFilterGroups =
          (if l = [] then none else some [⟨"and", l⟩])) :=
  ⟨by decide, built_body_shape qiHappy qbHappy (by decide)⟩

theorem parse_ymd_none (v : String) (h : toYmd v = none) :
    parse_ymd v = .error (.invalidDate v) := by
  rw [parse_ymd, h]

/-- C8: when several constraints are violated, `build_query_request`
reports the first one in the fixed source order: start-date syntax,
end-date syntax, date ordering, type, aggregation type, data state, row
limit, start row, dimension membership, filter parsing, and finally the
byProperty cross-field rule. -/
theorem first_violated_constraint_error_order (i : QueryInput) :
    (toYmd i.start_date = none →
      build_query_request i = .error (.invalidDate i.start_date)) ∧
    ((toYmd i.start_date).isSome → toYmd i.end_date = none →
      build_query_request i = .error (.invalidDate i.end_date)) ∧
    ((toYmd i.start_date).isSome → (toYmd i.end_date).isSome →
      validate_date_range i.start_date i.end_date = .error .dateOrder →
      build_query_request i = .error .dateOrder) ∧
    ((toYmd i.start_date).isSome → (toYmd i.end_date).isSome →
      validate_date_range i.start_date i.end_date = .ok () →
      i.query_type ∉ ALLOWED_TYPES →
      build_query_request i = .error (.unsupportedType i.query_type)) ∧
    ((toYmd i.start_date).isSome → (toYmd i.end_date).isSome →
      validate_date_range i.start_date i.end_date = .ok () →
      i.query_type ∈ ALLOWED_TYPES →
      i.aggregation_type ∉ ALLOWED_AGGREGATION_TYPES →
      build_query_request i = .error (.unsupportedAggregation i.aggregation_type)) ∧
    ((toYmd i.start_date).isSome → (toYmd i.end_date).isSome →
      validate_date_range i.start_date i.end_date = .ok () →
      i.query_type ∈ ALLOWED_TYPES →
      i.aggregation_type ∈ ALLOWED_AGGREGATION_TYPES →
      i.data_state ∉ ALLOWED_DATA_STATES →
      build_query_request i = .error (.unsupportedDataState i.data_state)) ∧
    ((toYmd i.start_date).isSome → (toYmd i.end_date).isSome →
      validate_date_range i.start_date i.end_date = .ok () →
      i.query_type ∈ ALLOWED_TYPES →
      i.aggregation_type ∈ ALLOWED_AGGREGATION_TYPES →
      i.data_state ∈ ALLOWED_DATA_STATES →
      ¬(1 ≤ i.row_limit ∧ i.row_limit ≤ 25000) →
      build_query_request i = .error .rowLimitRange) ∧
    ((toYmd i.start_date).isSome → (toYmd i.end_date).isSome →
      validate_date_range i.start_date i.end_date = .ok () →
      i.query_type ∈ ALLOWED_TYPES →
      i.aggregation_type ∈ ALLOWED_AGGREGATION_TYPES →
      i.data_state ∈ ALLOWED_DATA_STATES →
      (1 ≤ i.row_limit ∧ i.row_limit ≤ 25000) →
      i.start_row < 0 →
      build_query_request i = .error .startRowNegative) ∧
    ((toYmd i.start_date).isSome → (toYmd i.end_date).isSome →
      validate_date_range i.start_date i.end_date = .ok () →
      i.query_type ∈ ALLOWED_TYPES →
      i.aggregation_type ∈ ALLOWED_AGGREGATION_TYPES →
      i.data_state ∈ ALLOWED_DATA_STATES →
      (1 ≤ i.row_limit ∧ i.row_limit ≤ 25000) →
      ¬(i.start_row < 0) →
      ∀ e, check_dimensions i.dimensions = .error e →
        build_query_request i = .error e) ∧
    ((toYmd i.start_date).isSome → (toYmd i.end_date).isSome →
      validate_date_range i.start_date i.end_date = .ok () →
      i.query_type ∈ ALLOWED_TYPES →
      i.aggregation_type ∈ ALLOWED_AGGREGATION_TYPES →
      i.data_state ∈ ALLOWED_DATA_STATES →
      (1 ≤ i.row_limit ∧ i.row_limit ≤ 25000) →
      ¬(i.start_row < 0) →
      check_dimensions i.dimensions = .ok () →
      ∀ e, parse_filters i.filters = .error e →
        build_query_request i = .error e) ∧
    ((toYmd i.start_date).isSome → (toYmd i.end_date).isSome →
      validate_date_range i.start_date i.end_date = .ok () →
      i.query_type ∈ ALLOWED_TYPES →
      i.aggregation_type ∈ ALLOWED_AGGREGATION_TYPES →
      i.data_state ∈ ALLOWED_DATA_STATES →
      (1 ≤ i.row_limit ∧ i.row_limit ≤ 25000) →
      ¬(i.start_row < 0) →
      check_dimensions i.dimensions = .ok () →
      ∀ l, parse_filters i.filters = .ok l →
        i.aggregation_type = "byProperty" →
        ("page" ∈ i.dimensions ∨ ∃ f ∈ l, f.dimension = "page") →
        build_query_request i = .error .byPropertyPage) := by
  refine ⟨?_, ?_, ?_, ?_, ?_, ?_, ?_, ?_, ?_, ?_, ?_⟩
  · intro f1
    simp only [build_query_request, parse_ymd_none _ f1]
  · intro ok1 f2
    simp only [build_query_request, parse_ymd_isSome _ ok1, parse_ymd_none _ f2]
  · intro ok1 ok2 f3
    simp only [build_query_request, parse_ymd_isSome _ ok1, parse_ymd_isSome _ ok2, f3]
  · intro ok1 ok2 ok3 f4
    simp only [build_query_request, parse_ymd_isSome _ ok1, parse_ymd_isSome _ ok2, ok3]
    rw [if_pos f4]
  · intro ok1 ok2 ok3 ok4 f5
    simp only [build_query_request, parse_ymd_isSome _ ok1, parse_ymd_isSome _ ok2, ok3]
    rw [if_neg (not_not_intro ok4), if_pos f5]
  · intro ok1 ok2 ok3 ok4 ok5 f6
    simp only [build_query_request, parse_ymd_isSome _ ok1, parse_ymd_isSome _ ok2, ok3]
    rw [if_neg (not_not_intro ok4), if_neg (not_not_intro ok5), if_pos f6]
  · intro ok1 ok2 ok3 ok4 ok5 ok6 f7
    simp only [build_query_request, parse_ymd_isSome _ ok1, parse_ymd_isSome _ ok2, ok3]
    rw [if_neg (not_not_intro ok4), if_neg (not_not_intro ok5), if_neg (not_not_intro ok6),
      if_pos f7]
  · intro ok1 ok2 ok3 ok4 ok5 ok6 ok7 f8
    simp only [build_query_request, parse_ymd_isSome _ ok1, parse_ymd_isSome _ ok2, ok3]
    rw [if_neg (not_not_intro ok4), if_neg (not_not_intro ok5), if_neg (not_not_intro ok6),
      if_neg (not_not_intro ok7), if_pos f8]
  · intro ok1 ok2 ok3 ok4 ok5 ok6 ok7 ok8 e f9
    simp only [build_query_request, parse_ymd_isSome _ ok1, parse_ymd_isSome _ ok2, ok3]
    rw [if_neg (not_not_intro ok4), if_neg (not_not_intro ok5), if_neg (not_not_intro ok6),
      if_neg (not_not_intro ok7), if_neg ok8]
    simp only [f9]
  · intro ok1 ok2 ok3 ok4 ok5 ok6 ok7 ok8 ok9 e f10
    simp only [build_query_request, parse_ymd_isSome _ ok1, parse_ymd_isSome _ ok2, ok3]
    rw [if_neg (not_not_intro ok4), if_neg (not_not_intro ok5), if_neg (not_not_intro ok6),
      if_neg (not_not_intro ok7), if_neg ok8]
    simp only [ok9, f10]
  · intro ok1 ok2 ok3 ok4 ok5 ok6 ok7 ok8 ok9 l h10 hagg hpage
    simp only [build_query_request, parse_ymd_isSome _ ok1, parse_ymd_isSome _ ok2, ok3]
    rw [if_neg (not_not_intro ok4), if_neg (not_not_intro ok5), if_neg (not_not_intro ok6),
      if_neg (not_not_intro ok7), if_neg ok8]
    simp only [ok9, h10]
    have hcond : i.aggregation_type = "byProperty" ∧
        ("page" ∈ i.dimensions ∨ l.any (fun f => f.dimension == "page") = true) := by
      refine ⟨hagg, ?_⟩
      rcases hpage with hpd | hpf
      · exact Or.inl hpd
      · refine Or.inr ?_
        rw [List.any_eq_true]
        obtain ⟨f, hf, hfd⟩ := hpf
        exact ⟨f, hf, by rw [hfd]; rfl⟩
    rw [if_pos hcond]

theorem first_violated_constraint_error_order_witness :
    build_query_request qiAggFirst =
      .error (.unsupportedAggregation qiAggFirst.aggregation_type) :=
  (first_violated_constraint_error_order qiAggFirst).2.2.2.2.1
    (by decide) (by decide) (by decide) (by decide) (by decide)

/-! ## Record projection lemmas -/

theorem setKey_not_mem (m : List (String × JVal)) (k : String) (v : JVal)
    (h : k ∉ m.map Prod.fst) : setKey m k v = m ++ [(k, v)] := by
  induction m with
  | nil => rfl
  | cons e rest ih =>
    obtain ⟨k0, v0⟩ := e
    rw [List.map_cons, List.mem_cons, not_or] at h
    rw [setKey, if_neg (Ne.symm h.1), ih h.2, List.cons_append]

theorem dim_fields_map_fst (keys : List JVal) (ds : List String) (idx : Nat) :
    (dim_fields keys ds idx).map Prod.fst = ds := by
  induction ds generalizing idx with
  | nil => rfl
  | cons d ds' ih => rw [dim_fields, List.map_cons, ih]

theorem not_mem_metric_entry_fst (x n : String) (v : Option JVal) (hne : x ≠ n) :
    x ∉ (metric_entry n v).map Prod.fst := by
  cases v <;> simp [metric_entry, hne]

theorem add_metric_append (record : List (String × JVal)) (name : String)
    (v : Option JVal) (h : name ∉ record.map Prod.fst) :
    add_metric record name v = record ++ metric_entry name v := by
  cases v with
  | none => simp [add_metric, metric_entry]
  | some x => simp [add_metric, metric_entry, setKey_not_mem _ _ _ h]

theorem project_dims_eq (keys : List JVal) (ds : List String) (idx : Nat)
    (record : List (String × JVal)) (hnd : ds.Nodup)
    (hdisj : ∀ d ∈ ds, d ∉ record.map Prod.fst) :
    project_dims keys ds idx record = record ++ dim_fields keys ds idx := by
  induction ds generalizing idx record with
  | nil => simp [project_dims, dim_fields]
  | cons d ds' ih =>
    have hdisj' : ∀ d' ∈ ds',
        d' ∉ (record ++ [(d, keys.getD idx JVal.null)]).map Prod.fst := by
      intro d' hd'
      rw [List.map_append, List.mem_append, not_or]
      refine ⟨hdisj d' (List.mem_cons_of_mem _ hd'), ?_⟩
      simp only [List.map_cons, List.map_nil, List.mem_singleton]
      intro hdd
      rcases List.nodup_cons.mp hnd with ⟨hdnot, _⟩
      exact hdnot (hdd ▸ hd')
    rw [project_dims, setKey_not_mem _ _ _ (hdisj d (List.mem_cons_self _ _)),
      ih (idx + 1) _ (List.nodup_cons.mp hnd).2 hdisj', dim_fields]
    simp [List.append_assoc]

theorem row_to_record_eq (dimensions : List String) (row : ResponseRow)
    (hnd : dimensions.Nodup)
    (hdisj : ∀ d ∈ dimensions, d ∉ ["clicks", "impressions", "ctr", "position"]) :
    row_to_record dimensions row = record_spec dimensions row := by
  have hck : "clicks" ∉ dimensions := fun hm => (hdisj _ hm) (by decide)
  have him : "impressions" ∉ dimensions := fun hm => (hdisj _ hm) (by decide)
  have hct : "ctr" ∉ dimensions := fun hm => (hdisj _ hm) (by decide)
  have hpo : "position" ∉ dimensions := fun hm => (hdisj _ hm) (by decide)
  have k0 : (dim_fields row.keys dimensions 0).map Prod.fst = dimensions :=
    dim_fields_map_fst row.keys dimensions 0
  have h0 : project_dims row.keys dimensions 0 [] = dim_fields row.keys dimensions 0 := by
    have := project_dims_eq row.keys dimensions 0 [] hnd (by simp)
    simpa using this
  have m1 : add_metric (dim_fields row.keys dimensions 0) "clicks" row.clicks =
      dim_fields row.keys dimensions 0 ++ metric_entry "clicks" row.clicks :=
    add_metric_append _ _ _ (by rw [k0]; exact hck)
  have m2 : add_metric
        (dim_fields row.keys dimensions 0 ++ metric_entry "clicks" row.clicks)
        "impressions" row.impressions =
      dim_fields row.keys dimensions 0 ++ metric_entry "clicks" row.clicks ++
        metric_entry "impressions" row.impressions := by
    refine add_metric_append _ _ _ ?_
    rw [List.map_append, List.mem_append, not_or, k0]
    exact ⟨him, not_mem_metric_entry_fst _ _ _ (by decide)⟩
  have m3 : add_metric
        (dim_fields row.keys dimensions 0 ++ metric_entry "clicks" row.clicks ++
          metric_entry "impressions" row.impressions) "ctr" row.ctr =
      dim_fields row.keys dimensions 0 ++ metric_entry "clicks" row.clicks ++
        metric_entry "impressions" row.impressions ++ metric_entry "ctr" row.ctr := by
    refine add_metric_append _ _ _ ?_
    rw [List.map_append, List.mem_append, not_or, List.map_append, List.mem_append,
      not_or, k0]
    exact ⟨⟨hct, not_mem_metric_entry_fst _ _ _ (by decide)⟩,
      not_mem_metric_entry_fst _ _ _ (by decide)⟩
  have m4 : add_metric
        (dim_fields row.keys dimensions 0 ++ metric_entry "clicks" row.clicks ++
          metric_entry "impressions" row.impressions ++ metric_entry "ctr" row.ctr)
        "position" row.position =
      dim_fields row.keys dimensions 0 ++ metric_entry "clicks" row.clicks ++
        metric_entry "impressions" row.impressions ++ metric_entry "ctr" row.ctr ++
        metric_entry "position" row.position := by
    refine add_metric_append _ _ _ ?_
    rw [List.map_append, List.mem_append, not_or, List.map_append, List.mem_append,
      not_or, List.map_append, List.mem_append, not_or, k0]
    exact ⟨⟨⟨hpo, not_mem_metric_entry_fst _ _ _ (by decide)⟩,
      not_mem_metric_entry_fst _ _ _ (by decide)⟩,
      not_mem_metric_entry_fst _ _ _ (by decide)⟩
  rw [row_to_record, h0, m1, m2, m3, m4, record_spec]
  simp [List.append_assoc]

/-- C9 counterexample: with a duplicated dimension name, or a dimension
named like a metric field carried by the row, the dict write for a later
position (or for the metric) overwrites the earlier positional key, so the
field named `dimensions[i]` does not equal the row's key at `i`. -/
theorem projector_positional_claim_counterexample :
    (¬ ∀ j : Fin 2,
        (row_to_record dimsDup rowAB).lookup (dimsDup.getD j.val "") =
          some (rowAB.keys.getD j.val JVal.null)) ∧
    (¬ ∀ j : Fin 1,
        (row_to_record ["ctr"] rowCtr).lookup ((["ctr"] : List String).getD j.val "") =
          some (rowCtr.keys.getD j.val JVal.null)) := by
  decide

/-- C9 (amended): provided the requested dimension names are pairwise
distinct and none of them collides with the four metric field names, each
row projects to the record that lists, per dimension index `i`, the field
`dimensions[i]` holding the row's positional key at `i` (null when the row
has fewer keys — never an error), followed by exactly the metric fields
present in the row, in the fixed order clicks, impressions, ctr, position,
values unchanged. -/
theorem projector_records_shape (rows : List ResponseRow) (dimensions : List String)
    (hnd : dimensions.Nodup)
    (hdisj : ∀ d ∈ dimensions, d ∉ ["clicks", "impressions", "ctr", "position"]) :
    rows_to_records rows dimensions = rows.map (record_spec dimensions) := by
  rw [rows_to_records]
  have hfun : row_to_record dimensions = record_spec dimensions :=
    funext fun row => row_to_record_eq dimensions row hnd hdisj
  rw [hfun]

theorem projector_records_shape_witness :
    rows_to_records [rowShort] ["date", "query"] =
      [rowShort].map (record_spec ["date", "query"]) :=
  projector_records_shape [rowShort] ["date", "query"] (by decide) (by decide)
